import Mathlib

/-!
Verification development for the CourseCrafter repository
(`roadmap.py` and `youtube_topic_finder.py`).

Strings are modelled as `List Char`; Python string literals appear as
`"...".data`.  Calls to external services (the Gemini generation API and the
YouTube Data API) are modelled by an explicit outcome argument of type
`Except`: `Except.error e` stands for the call raising an exception with
message `e`, `Except.ok v` for a successful return of `v`.  Messages shown
through `st.error` are collected in an explicit list where a claim needs them.
-/

namespace CourseCrafter

/-- Python's `\s` character class restricted to ASCII, as used by the `re`
module on the roadmap text: space, tab, newline, carriage return, vertical
tab and form feed. -/
def pyIsSpace (c : Char) : Bool :=
  c == ' ' || c == '\t' || c == '\n' || c == '\r' || c == '\x0b' || c == '\x0c'

/-- The sub-pattern `(?:\n-[^\n]*)*` of `roadmap.py` line 70: greedily consume
zero or more continuation lines that start with `-`.  Returns the remainder of
the input after the consumed continuation lines.  `fuel` bounds the recursion;
every iteration consumes at least two characters, so `fuel = s.length` always
suffices. -/
def matchContAux : Nat → List Char → List Char
  | 0, s => s
  | fuel + 1, s =>
    match s with
    | '\n' :: '-' :: t => matchContAux fuel (t.dropWhile (fun c => !(c == '\n')))
    | s => s

/-- Entry point of `matchContAux` with sufficient fuel. -/
def matchCont (s : List Char) : List Char :=
  matchContAux s.length s

/-- A whitespace run truncated after its last non-newline character: the
backtracking residue of `\s*` when `[^\n]+` has no character left after the
maximal whitespace run. -/
def keptWS (ws : List Char) : List Char :=
  (ws.reverse.dropWhile (fun c => c == '\n')).reverse

/-- The sub-pattern `\s*[^\n]+` with Python's greedy backtracking semantics:
`\s*` first takes the maximal whitespace run; if the input then ends, `\s*`
backs off to the last non-newline whitespace character so that `[^\n]+` can
still consume one character.  Returns `(consumed, rest)` on success. -/
def matchBody (s2 : List Char) : Option (List Char × List Char) :=
  match s2.dropWhile pyIsSpace with
  | c :: t =>
    some (s2.takeWhile pyIsSpace ++ (c :: t).takeWhile (fun x => !(x == '\n')),
          (c :: t).dropWhile (fun x => !(x == '\n')))
  | [] =>
    if (keptWS (s2.takeWhile pyIsSpace)).isEmpty then none
    else some (keptWS (s2.takeWhile pyIsSpace),
               (s2.takeWhile pyIsSpace).drop (keptWS (s2.takeWhile pyIsSpace)).length)

/-- One match attempt of the pattern `(\d+\.\s*[^\n]+)(?:\n-[^\n]*)*` of
`roadmap.py` line 70 at the start of `s`.  On success returns the text of
capture group 1 and the remainder of the input after the whole match
(continuation lines included). -/
def matchPhase (s : List Char) : Option (List Char × List Char) :=
  match s.takeWhile Char.isDigit, s.dropWhile Char.isDigit with
  | d :: ds, '.' :: s2 =>
    (matchBody s2).map (fun pr => ((d :: ds) ++ '.' :: pr.1, matchCont pr.2))
  | _, _ => none

/-- One match attempt of the pattern `(\d+\.\s*[^\n]+)` of `roadmap.py`
line 158 (the statistics extraction in `main`), which has no continuation
sub-pattern. -/
def matchPhaseSimple (s : List Char) : Option (List Char × List Char) :=
  match s.takeWhile Char.isDigit, s.dropWhile Char.isDigit with
  | d :: ds, '.' :: s2 =>
    (matchBody s2).map (fun pr => ((d :: ds) ++ '.' :: pr.1, pr.2))
  | _, _ => none

/-- `re.findall` scanning loop: try a match at the current position; on
success emit the capture and resume after the match, otherwise advance one
character.  `fuel` bounds the recursion; `fuel = s.length` is always enough
because each step consumes at least one character or one unit of fuel. -/
def findAux (step : List Char → Option (List Char × List Char)) :
    Nat → List Char → List (List Char)
  | 0, _ => []
  | _ + 1, [] => []
  | fuel + 1, c :: t =>
    match step (c :: t) with
    | some (cap, rest) => cap :: findAux step fuel rest
    | none => findAux step fuel t

/-- `re.findall(r'(\d+\.\s*[^\n]+)(?:\n-[^\n]*)*', roadmap_text)` from
`AIRoadmapGenerator.create_roadmap_visualization` (`roadmap.py` lines 69-71). -/
def findPhases (s : List Char) : List (List Char) :=
  findAux matchPhase s.length s

/-- `re.findall(r'(\d+\.\s*[^\n]+)', ai_roadmap)` from `main`
(`roadmap.py` line 158), used for the statistics metrics. -/
def statsPhases (s : List Char) : List (List Char) :=
  findAux matchPhaseSimple s.length s

/-- The lines of a text, split at newline characters. -/
def linesOf (s : List Char) : List (List Char) :=
  s.splitOn '\n'

/-- Whether a single line (no newline inside) matches `^\d+\.\s*.+`:
it starts with a nonempty digit run followed by a period, with at least one
further character on the line (inside one line `\s*.+` succeeds exactly when
something follows the period). -/
def lineIsNumbered (l : List Char) : Bool :=
  match l.takeWhile Char.isDigit, l.dropWhile Char.isDigit with
  | _ :: _, '.' :: u => !u.isEmpty
  | _, _ => false

/-- Whether the text contains a digit immediately followed by a period
anywhere (a necessary condition for the phase pattern to match). -/
def hasDigitDot : List Char → Bool
  | a :: b :: t => (a.isDigit && b == '.') || hasDigitDot (b :: t)
  | _ => false

/-! ### Timeline visualization (`AIRoadmapGenerator.create_roadmap_visualization`) -/

/-- One horizontal bar trace added by `fig.add_trace(go.Bar(...))`
(`roadmap.py` lines 88-98).  Field values mirror the keyword arguments of the
`go.Bar` call. -/
structure Trace where
  x : List Nat
  y : List (List Char)
  orientation : List Char
  marker_color : List Char
  name : List Char
  text : List (List Char)
  textposition : List Char
  hoverinfo : List Char
  hovertext : List Char
  deriving Repr, DecidableEq

/-- The Plotly figure, reduced to the data it accumulates: the list of bar
traces.  Layout settings (`update_layout`) are display-only constants and are
not modelled. -/
structure Figure where
  traces : List Trace
  deriving Repr, DecidableEq

/-- The `colors` list of `roadmap.py` lines 76-79. -/
def colorsList : List (List Char) :=
  ["rgb(46, 137, 205)".data, "rgb(114, 44, 121)".data,
   "rgb(198, 47, 105)".data, "rgb(58, 200, 225)".data]

/-- `duration = 4 if i < 2 else 6` (`roadmap.py` line 84). -/
def phaseDuration (i : Nat) : Nat :=
  if i < 2 then 4 else 6

/-- The `go.Bar` trace built for phase `phase` at index `i`
(`roadmap.py` lines 88-98). -/
def mkBarTrace (i : Nat) (phase : List Char) : Trace :=
  { x := [phaseDuration i]
    y := [phase]
    orientation := "h".data
    marker_color := colorsList.getD (i % colorsList.length) []
    name := phase
    text := [phase ++ " (".data ++ (Nat.repr (phaseDuration i)).data ++ " weeks)".data]
    textposition := "outside".data
    hoverinfo := "text".data
    hovertext := phase ++ "\nEstimated Duration: ".data
      ++ (Nat.repr (phaseDuration i)).data ++ " weeks".data }

/-- The `for i, phase in enumerate(phases)` loop of `roadmap.py` lines 82-100:
given the remaining phases, the current index `i`, and the current
`start_date` offset (in weeks from `datetime.now()`), returns the list of bar
traces added and the sequence of `start_date` offsets taken by the loop
variable at the top of each iteration. -/
def vizLoopAux : List (List Char) → Nat → Nat → List Trace × List Nat
  | [], _, _ => ([], [])
  | p :: ps, i, start =>
    (mkBarTrace i p :: (vizLoopAux ps (i + 1) (start + phaseDuration i)).1,
     start :: (vizLoopAux ps (i + 1) (start + phaseDuration i)).2)

/-- `AIRoadmapGenerator.create_roadmap_visualization` (`roadmap.py`
lines 65-110): extract the phases with the regex and build one horizontal bar
trace per phase. -/
def create_roadmap_visualization (roadmap_text : List Char) : Figure :=
  { traces := (vizLoopAux (findPhases roadmap_text) 0 0).1 }

/-- The sequence of `start_date` values (in weeks from `datetime.now()`)
taken by the visualization loop for a given roadmap text. -/
def roadmapStartOffsets (roadmap_text : List Char) : List Nat :=
  (vizLoopAux (findPhases roadmap_text) 0 0).2

/-- Total number of weeks covered by the bars of a figure (each bar carries
its duration as its single `x` value). -/
def totalVizWeeks (f : Figure) : Nat :=
  (f.traces.map (fun tr => tr.x.sum)).sum

/-- The "Estimated Duration" metric shown by `main`
(`roadmap.py` line 160): `len(phases) * 4` weeks, where `phases` is the
statistics extraction of line 158. -/
def estimated_duration_metric (ai_roadmap : List Char) : Nat :=
  (statsPhases ai_roadmap).length * 4

/-- Sum of `phaseDuration` over `n` consecutive indices starting at `i`. -/
def durTotal (i : Nat) : Nat → Nat
  | 0 => 0
  | n + 1 => phaseDuration i + durTotal (i + 1) n

/-! ### Generation and search clients -/

/-- Whether `s` starts with the characters of `pre`. -/
def beginsWith (pre s : List Char) : Bool :=
  s.take pre.length == pre

/-- `AIRoadmapGenerator.generate_comprehensive_roadmap` (`roadmap.py`
lines 41-63), abstracted over the outcome of the
`self.model.generate_content(...)` call: `Except.error e` models the call
raising an exception with message `e`, `Except.ok t` a response whose `.text`
is `t` (with `[]` standing for a falsy/absent response).  Returns the list of
`st.error` messages shown and the string returned to the caller. -/
def generate_comprehensive_roadmap (outcome : Except (List Char) (List Char)) :
    List (List Char) × List Char :=
  match outcome with
  | .ok t =>
    if t.isEmpty then
      (["No response generated. Please try again.".data], "Unable to generate roadmap.".data)
    else
      ([], t)
  | .error e =>
    (["Roadmap Generation Error: ".data ++ e], "Error generating roadmap: ".data ++ e)

/-- Python's `str.strip()` over the ASCII whitespace class. -/
def pyStrip (s : List Char) : List Char :=
  ((s.dropWhile pyIsSpace).reverse.dropWhile pyIsSpace).reverse

/-- `refine_search_query` (`youtube_topic_finder.py` lines 33-61), abstracted
over the outcome of `model.generate_content(prompt)`: on an exception the
original query is returned; otherwise the stripped response text is returned
if nonempty, and the original query if it strips to empty. -/
def refine_search_query (original_query : List Char)
    (outcome : Except (List Char) (List Char)) : List Char :=
  match outcome with
  | .error _ => original_query
  | .ok t =>
    let refined_query := pyStrip t
    if refined_query.isEmpty then original_query else refined_query

/-- `generate_topic_insight` (`youtube_topic_finder.py` lines 63-82),
abstracted over the generation call outcome. -/
def generate_topic_insight (outcome : Except (List Char) (List Char)) : List Char :=
  match outcome with
  | .ok t => t
  | .error _ => "Unable to generate topic insight.".data

/-- The `accumulated_response` loop of `stream_gemini_response`
(`youtube_topic_finder.py` lines 179-185): yields the running concatenation
after each chunk. -/
def streamAccum (acc : List Char) : List (List Char) → List (List Char)
  | [] => []
  | c :: cs => (acc ++ c) :: streamAccum (acc ++ c) cs

/-- `stream_gemini_response` (`youtube_topic_finder.py` lines 170-188):
the values yielded by the generator given the chunk texts delivered by the
streaming API, and, when the stream raises (`err = some e`), the final
error-message yield of the `except` branch. -/
def stream_gemini_response (chunks : List (List Char)) (err : Option (List Char)) :
    List (List Char) :=
  streamAccum [] chunks ++
    (match err with
     | none => []
     | some e => ["Error generating response: ".data ++ e])

/-! ### YouTube search (`search_youtube_content`) -/

/-- The `id` object of a search-response item; each key may be absent
(accessing an absent key raises a `KeyError`, modelled as `Except.error`). -/
structure YTItemId where
  videoId : Option (List Char)
  playlistId : Option (List Char)
  deriving Repr, DecidableEq

/-- The `snippet` object of a search-response item. -/
structure YTSnippet where
  title : List Char
  description : List Char
  thumbnailMediumUrl : List Char
  channelTitle : List Char
  deriving Repr, DecidableEq

/-- One item of the search response. -/
structure YTItem where
  id : YTItemId
  snippet : YTSnippet
  deriving Repr, DecidableEq

/-- The search response: its `items` list (`search_response.get('items', [])`). -/
structure YTSearchResponse where
  items : List YTItem
  deriving Repr, DecidableEq

/-- One result dictionary built by `search_youtube_content`
(`youtube_topic_finder.py` lines 105-111). -/
structure SearchResult where
  title : List Char
  description : List Char
  thumbnail : List Char
  link : List Char
  channel : List Char
  deriving Repr, DecidableEq

/-- The link construction of `youtube_topic_finder.py` lines 98-103: a watch
link from `item['id']['videoId']` when the content type is `video`, otherwise
a playlist link from `item['id']['playlistId']`; a missing key raises. -/
def itemLink (content_type : List Char) (item : YTItem) : Except (List Char) (List Char) :=
  if content_type = "video".data then
    match item.id.videoId with
    | some v => .ok ("https://www.youtube.com/watch?v=".data ++ v)
    | none => .error "KeyError: videoId".data
  else
    match item.id.playlistId with
    | some p => .ok ("https://www.youtube.com/playlist?list=".data ++ p)
    | none => .error "KeyError: playlistId".data

/-- The result dictionary for one item (`youtube_topic_finder.py`
lines 105-111). -/
def mkSearchResult (item : YTItem) (link : List Char) : SearchResult :=
  { title := item.snippet.title
    description := item.snippet.description
    thumbnail := item.snippet.thumbnailMediumUrl
    link := link
    channel := item.snippet.channelTitle }

/-- The `for item in search_response.get('items', [])` loop
(`youtube_topic_finder.py` lines 96-112); a raised `KeyError` aborts the
whole `try` block. -/
def buildResults (content_type : List Char) : List YTItem → Except (List Char) (List SearchResult)
  | [] => .ok []
  | item :: rest =>
    (itemLink content_type item).bind fun link =>
      (buildResults content_type rest).map fun tail =>
        mkSearchResult item link :: tail

/-- `search_youtube_content` (`youtube_topic_finder.py` lines 84-118),
abstracted over the outcome of the `youtube_service.search().list(...)
.execute()` call for the given query, content type and result bound.  Any
exception inside the `try` block is caught: the error is shown via `st.error`
(second component) and `[]` is returned.  `query` and `max_results` only
parameterize the external call. -/
def search_youtube_content (query content_type : List Char) (max_results : Nat)
    (callOutcome : Except (List Char) YTSearchResponse) :
    List SearchResult × List (List Char) :=
  match callOutcome.bind (fun resp => buildResults content_type resp.items) with
  | .ok results => (results, [])
  | .error e => ([], ["An error occurred while searching YouTube: ".data ++ e])

/-- A concrete two-item search response used to instantiate the search-client
theorems. -/
def sampleResp : YTSearchResponse :=
  { items := [
      { id := { videoId := some "abc".data, playlistId := some "PL1".data },
        snippet := { title := "T1".data, description := "D1".data,
                     thumbnailMediumUrl := "U1".data, channelTitle := "Ch1".data } },
      { id := { videoId := some "def".data, playlistId := some "PL2".data },
        snippet := { title := "T2".data, description := "D2".data,
                     thumbnailMediumUrl := "U2".data, channelTitle := "Ch2".data } } ] }

/-! ### Helper lemmas about the extraction scanner -/

theorem dropWhile_head_false (p : Char → Bool) (l : List Char) {c : Char} {t : List Char}
    (h : l.dropWhile p = c :: t) : p c = false := by
  induction l with
  | nil => simp [List.dropWhile] at h
  | cons a l ih =>
    rw [List.dropWhile_cons] at h
    split at h
    · exact ih h
    · rename_i ha
      obtain ⟨rfl, rfl⟩ := List.cons.injEq .. ▸ h
      simpa using ha

theorem matchBody_fst_ne_nil {s2 : List Char} {pr : List Char × List Char}
    (h : matchBody s2 = some pr) : pr.1 ≠ [] := by
  unfold matchBody at h
  split at h
  · rename_i c t heq
    injection h with h2
    subst h2
    have hc : pyIsSpace c = false := dropWhile_head_false pyIsSpace s2 heq
    have hcn : (c == '\n') = false := by
      cases hcc : c == '\n'
      · rfl
      · have hceq : c = '\n' := by simpa using hcc
        rw [hceq] at hc
        simp [pyIsSpace] at hc
    simp [List.takeWhile_cons, hcn, List.append_eq_nil]
  · split at h
    · exact absurd h (by simp)
    · rename_i hne
      injection h with h2
      subst h2
      simpa [List.isEmpty_iff] using hne

theorem matchPhase_some_shape {s cap rest : List Char}
    (h : matchPhase s = some (cap, rest)) :
    ∃ d ds tail, cap = (d :: ds) ++ '.' :: tail ∧
      (∀ c ∈ d :: ds, c.isDigit = true) ∧ tail ≠ [] := by
  unfold matchPhase at h
  split at h
  · rename_i d ds s2 heq1 heq2
    cases hmb : matchBody s2 with
    | none => rw [hmb] at h; exact absurd h (by simp)
    | some pr =>
      rw [hmb] at h
      simp only [Option.map_some'] at h
      injection h with h2
      injection h2 with hcap hrest
      refine ⟨d, ds, pr.1, hcap.symm, ?_, matchBody_fst_ne_nil hmb⟩
      intro c hc
      exact List.mem_takeWhile_imp (heq1 ▸ hc)
  · exact absurd h (by simp)

theorem hasDigitDot_append (ds : List Char) (hne : ds ≠ [])
    (hd : ∀ c ∈ ds, c.isDigit = true) (r : List Char) :
    hasDigitDot (ds ++ '.' :: r) = true := by
  induction ds with
  | nil => exact absurd rfl hne
  | cons a ds ih =>
    cases ds with
    | nil => simp [hasDigitDot, hd a (by simp)]
    | cons b ds' =>
      have hrec := ih (by simp) (fun c hc => hd c (List.mem_cons_of_mem a hc))
      simp only [List.cons_append, hasDigitDot] at hrec ⊢
      simp [hrec]

theorem matchPhase_none_of_no_digitDot {s : List Char}
    (h : hasDigitDot s = false) : matchPhase s = none := by
  unfold matchPhase
  split
  · rename_i d ds s2 heq1 heq2
    exfalso
    have hs : s = (d :: ds) ++ '.' :: s2 := by
      conv_lhs => rw [← List.takeWhile_append_dropWhile (p := Char.isDigit) (l := s)]
      rw [heq1, heq2]
    have := hasDigitDot_append (d :: ds) (by simp)
      (fun c hc => List.mem_takeWhile_imp (heq1 ▸ hc)) s2
    rw [← hs] at this
    simp [this] at h
  · rfl

theorem hasDigitDot_tail {c : Char} {t : List Char}
    (h : hasDigitDot (c :: t) = false) : hasDigitDot t = false := by
  cases t with
  | nil => rfl
  | cons b t' =>
    simp only [hasDigitDot, Bool.or_eq_false_iff] at h
    exact h.2

theorem findAux_nil_of_no_digitDot :
    ∀ (n : Nat) (s : List Char), hasDigitDot s = false → findAux matchPhase n s = [] := by
  intro n
  induction n with
  | zero => intro s _; rfl
  | succ n ih =>
    intro s h
    cases s with
    | nil => rfl
    | cons c t =>
      simp only [findAux, matchPhase_none_of_no_digitDot h]
      exact ih t (hasDigitDot_tail h)

theorem findAux_mem_shape :
    ∀ (n : Nat) (s p : List Char), p ∈ findAux matchPhase n s →
      ∃ d ds tail, p = (d :: ds) ++ '.' :: tail ∧
        (∀ c ∈ d :: ds, c.isDigit = true) ∧ tail ≠ [] := by
  intro n
  induction n with
  | zero => intro s p hp; simp [findAux] at hp
  | succ n ih =>
    intro s p hp
    cases s with
    | nil => simp [findAux] at hp
    | cons c t =>
      cases hm : matchPhase (c :: t) with
      | none =>
        simp only [findAux, hm] at hp
        exact ih t p hp
      | some pr =>
        obtain ⟨cap, rest⟩ := pr
        simp only [findAux, hm, List.mem_cons] at hp
        rcases hp with rfl | hp
        · exact matchPhase_some_shape hm
        · exact ih rest p hp

/-! ### Claim theorems for the Phase Extractor -/

/-- C1 counterexample: the extraction pattern is not anchored to line starts.
In the text `"go to 2. Advanced topics"` no line begins with an integer and a
period, yet the Phase Extractor produces the phase `"2. Advanced topics"`
from the numbered pattern in the middle of the line. -/
theorem phase_from_midline_cex :
    (∀ l ∈ linesOf "go to 2. Advanced topics".data, lineIsNumbered l = false)
    ∧ findPhases "go to 2. Advanced topics".data = ["2. Advanced topics".data]
    ∧ findPhases "go to 2. Advanced topics".data ≠ [] := by
  refine ⟨by decide, by decide, by decide⟩

/-- C1 (amended): every phase label produced by the Phase Extractor begins
with a nonempty run of digits followed by a period and has content after the
period; the pattern, however, is not anchored to the start of a line, so a
numbered pattern occurring in the middle of a line also produces a phase. -/
theorem phase_label_shape :
    ∀ (text p : List Char), p ∈ findPhases text →
      ∃ d ds tail, p = (d :: ds) ++ '.' :: tail ∧
        (∀ c ∈ d :: ds, c.isDigit = true) ∧ tail ≠ [] := by
  intro text p hp
  exact findAux_mem_shape text.length text p hp

/-- Witness for `phase_label_shape` at the concrete text `"1. Foo"`. -/
theorem phase_label_shape_witness :
    ∃ d ds tail, "1. Foo".data = (d :: ds) ++ '.' :: tail ∧
      (∀ c ∈ d :: ds, c.isDigit = true) ∧ tail ≠ [] :=
  phase_label_shape "1. Foo".data "1. Foo".data (by decide)

/-- C5: the Phase Extractor applied to `"1. Foo\n- x\n2. Bar\n- y\n3. Baz"`
returns exactly the ordered sequence `["1. Foo", "2. Bar", "3. Baz"]`. -/
theorem phase_extractor_example :
    findPhases "1. Foo\n- x\n2. Bar\n- y\n3. Baz".data
      = ["1. Foo".data, "2. Bar".data, "3. Baz".data] := by
  decide

/-- C6 counterexample: the text `"see step 1. basics"` contains no numbered
line (no line begins with an integer and a period), yet the Phase Extractor
returns a non-empty sequence, because the pattern also matches mid-line. -/
theorem no_numbered_line_nonempty_cex :
    (∀ l ∈ linesOf "see step 1. basics".data, lineIsNumbered l = false)
    ∧ findPhases "see step 1. basics".data = ["1. basics".data]
    ∧ findPhases "see step 1. basics".data ≠ [] := by
  refine ⟨by decide, by decide, by decide⟩

/-- C6 (amended): for every input text in which no digit is immediately
followed by a period, the Phase Extractor returns an empty sequence, and the
visualization built from that text is a figure with zero bar traces (the
function is total, so no exception is raised). -/
theorem no_digit_dot_empty_viz :
    ∀ text : List Char, hasDigitDot text = false →
      findPhases text = [] ∧ (create_roadmap_visualization text).traces = [] := by
  intro text h
  have hfp : findPhases text = [] := findAux_nil_of_no_digitDot text.length text h
  refine ⟨hfp, ?_⟩
  simp [create_roadmap_visualization, hfp, vizLoopAux]

/-- Witness for `no_digit_dot_empty_viz` at the concrete text
`"hello world"`. -/
theorem no_digit_dot_empty_viz_witness :
    hasDigitDot "hello world".data = false
    ∧ findPhases "hello world".data = []
    ∧ (create_roadmap_visualization "hello world".data).traces = [] :=
  ⟨by decide, (no_digit_dot_empty_viz "hello world".data (by decide)).1,
    (no_digit_dot_empty_viz "hello world".data (by decide)).2⟩

/-! ### Claim theorems for the generation clients -/

/-- C2 counterexample: when the roadmap generation call raises the exception
`"boom"`, `generate_comprehensive_roadmap` returns
`"Error generating roadmap: boom"`, which does not begin with
`"Unable to generate"`; that fallback is only used for an empty successful
response. -/
theorem roadmap_generation_error_cex :
    (generate_comprehensive_roadmap (Except.error "boom".data)).2
      = "Error generating roadmap: boom".data
    ∧ beginsWith "Unable to generate".data
        (generate_comprehensive_roadmap (Except.error "boom".data)).2 = false := by
  refine ⟨by decide, by decide⟩

/-- C2 (amended): for every exception `e` raised by the roadmap generation
call, `generate_comprehensive_roadmap` reports
`"Roadmap Generation Error: <e>"` as a non-fatal message and returns the
fallback string `"Error generating roadmap: <e>"` (the pipeline continues);
the fallback `"Unable to generate roadmap."` is returned only when the call
succeeds with an empty response. -/
theorem roadmap_generation_error_fallbacks :
    ∀ e : List Char,
      generate_comprehensive_roadmap (Except.error e)
        = (["Roadmap Generation Error: ".data ++ e], "Error generating roadmap: ".data ++ e)
      ∧ generate_comprehensive_roadmap (Except.ok [])
        = (["No response generated. Please try again.".data],
           "Unable to generate roadmap.".data) := by
  intro e
  exact ⟨rfl, rfl⟩

/-- C4: for every original topic, if the query-refinement generation call
fails, or it succeeds with empty generated text, `refine_search_query`
returns the original topic exactly unchanged. -/
theorem refine_query_fallback_identity :
    (∀ (original_query e : List Char),
      refine_search_query original_query (Except.error e) = original_query)
    ∧ (∀ original_query : List Char,
      refine_search_query original_query (Except.ok []) = original_query) := by
  exact ⟨fun _ _ => rfl, fun _ => rfl⟩

theorem streamAccum_eq (chunks : List (List Char)) :
    ∀ acc : List Char,
      streamAccum acc chunks
        = (List.range chunks.length).map (fun i => acc ++ (chunks.take (i + 1)).flatten) := by
  induction chunks with
  | nil => intro acc; simp [streamAccum]
  | cons c cs ih =>
    intro acc
    simp only [streamAccum, ih (acc ++ c), List.length_cons, List.range_succ_eq_map,
      List.map_cons, List.map_map]
    congr 1
    · simp
    · apply List.map_congr_left
      intro i _
      simp [List.take_succ_cons, List.flatten_cons, List.append_assoc, Function.comp]

theorem streamAccum_chain (chunks : List (List Char)) :
    ∀ acc : List Char,
      List.Chain' (fun a b => ∃ t, b = a ++ t) (streamAccum acc chunks) := by
  induction chunks with
  | nil => intro acc; simp [streamAccum]
  | cons c cs ih =>
    intro acc
    rw [streamAccum, List.chain'_cons']
    refine ⟨?_, ih (acc ++ c)⟩
    intro y hy
    cases cs with
    | nil => simp [streamAccum] at hy
    | cons c' cs' =>
      simp only [streamAccum, List.head?_cons, Option.mem_def, Option.some.injEq] at hy
      exact ⟨c', by rw [← hy, List.append_assoc]⟩

/-- C7: for every finite sequence of response chunks (delivered without an
exception), the streaming generation mode yields the running concatenations
of the chunk texts: the i-th yielded value is the concatenation of the first
i+1 chunks, and consecutive yielded values extend one another, so each
yielded string has the previously yielded one as a prefix. -/
theorem stream_accumulated_growth :
    ∀ chunks : List (List Char),
      stream_gemini_response chunks none
        = (List.range chunks.length).map (fun i => (chunks.take (i + 1)).flatten)
      ∧ List.Chain' (fun a b => ∃ t, b = a ++ t) (stream_gemini_response chunks none) := by
  intro chunks
  have h1 : stream_gemini_response chunks none = streamAccum [] chunks := by
    simp [stream_gemini_response]
  refine ⟨?_, h1 ▸ streamAccum_chain chunks []⟩
  rw [h1, streamAccum_eq chunks []]
  simp

/-- C8: for every query, content type and result-count bound, if the search
call raises an exception `e`, `search_youtube_content` reports the error via
`st.error` and returns an empty result list; the exception is never
propagated (the function is total and returns normally). -/
theorem search_failure_empty_results :
    ∀ (query content_type : List Char) (max_results : Nat) (e : List Char),
      search_youtube_content query content_type max_results (Except.error e)
        = ([], ["An error occurred while searching YouTube: ".data ++ e]) := by
  intro query content_type max_results e
  rfl

/-! ### Claim theorems for Timeline Assignment -/

theorem exists_four_of_length {α : Type} {l : List α} (h : l.length = 4) :
    ∃ a b c d, l = [a, b, c, d] := by
  obtain - | ⟨a, l⟩ := l; · simp at h
  obtain - | ⟨b, l⟩ := l; · simp at h
  obtain - | ⟨c, l⟩ := l; · simp at h
  obtain - | ⟨d, l⟩ := l; · simp at h
  obtain - | ⟨e, l⟩ := l
  · exact ⟨a, b, c, d, rfl⟩
  · simp at h

/-- C3: for every roadmap text from which exactly 4 phases are extracted,
the visualization gives the phases the durations `[4, 4, 6, 6]` weeks
(indices 0 and 1 get 4 weeks, later indices 6 weeks), and the running-sum
start offsets from "now" are `[0, 4, 8, 14]` weeks. -/
theorem timeline_four_phase_durations :
    ∀ text : List Char, (findPhases text).length = 4 →
      (create_roadmap_visualization text).traces.map (fun tr => tr.x) = [[4], [4], [6], [6]]
      ∧ roadmapStartOffsets text = [0, 4, 8, 14] := by
  intro text h
  obtain ⟨a, b, c, d, hl⟩ := exists_four_of_length h
  constructor
  · simp [create_roadmap_visualization, hl, vizLoopAux, mkBarTrace, phaseDuration]
  · simp [roadmapStartOffsets, hl, vizLoopAux, phaseDuration]

/-- Witness for `timeline_four_phase_durations` at a concrete four-phase
roadmap text. -/
theorem timeline_four_phase_durations_witness :
    (findPhases "1. A\n2. B\n3. C\n4. D".data).length = 4
    ∧ (create_roadmap_visualization "1. A\n2. B\n3. C\n4. D".data).traces.map (fun tr => tr.x)
        = [[4], [4], [6], [6]]
    ∧ roadmapStartOffsets "1. A\n2. B\n3. C\n4. D".data = [0, 4, 8, 14] :=
  ⟨by decide,
   (timeline_four_phase_durations "1. A\n2. B\n3. C\n4. D".data (by decide)).1,
   (timeline_four_phase_durations "1. A\n2. B\n3. C\n4. D".data (by decide)).2⟩

/-! ### Claim theorems for the search client -/

theorem buildResults_video (items : List YTItem)
    (h : ∀ it ∈ items, it.id.videoId ≠ none) :
    buildResults "video".data items = Except.ok (items.map (fun it =>
      mkSearchResult it ("https://www.youtube.com/watch?v=".data ++ it.id.videoId.getD []))) := by
  induction items with
  | nil => rfl
  | cons it rest ih =>
    obtain ⟨v, hv⟩ := Option.ne_none_iff_exists'.mp (h it (by simp))
    have hrest := ih (fun x hx => h x (List.mem_cons_of_mem it hx))
    simp [buildResults, itemLink, hv, hrest, Except.bind, Except.map]

theorem buildResults_playlist (items : List YTItem)
    (h : ∀ it ∈ items, it.id.playlistId ≠ none) :
    buildResults "playlist".data items = Except.ok (items.map (fun it =>
      mkSearchResult it ("https://www.youtube.com/playlist?list=".data
        ++ it.id.playlistId.getD []))) := by
  induction items with
  | nil => rfl
  | cons it rest ih =>
    obtain ⟨p, hp⟩ := Option.ne_none_iff_exists'.mp (h it (by simp))
    have hrest := ih (fun x hx => h x (List.mem_cons_of_mem it hx))
    have hne : ("playlist".data : List Char) ≠ "video".data := by decide
    simp [buildResults, itemLink, hne, hp, hrest, Except.bind, Except.map]

/-- C9: for every query, result bound, and search response containing N
items, `search_youtube_content` returns exactly N results in the same order
(titles correspond index-wise), where each result's link is
`https://www.youtube.com/watch?v=<id>` for content type `video` and
`https://www.youtube.com/playlist?list=<id>` for content type `playlist`
(provided each item carries the id key its content type requires). -/
theorem search_results_shape :
    ∀ (query : List Char) (max_results : Nat) (resp : YTSearchResponse),
      ((∀ it ∈ resp.items, it.id.videoId ≠ none) →
        (search_youtube_content query "video".data max_results (Except.ok resp)).1.length
          = resp.items.length
        ∧ (search_youtube_content query "video".data max_results (Except.ok resp)).1.map
            (fun r => r.link)
          = resp.items.map
              (fun it => "https://www.youtube.com/watch?v=".data ++ it.id.videoId.getD [])
        ∧ (search_youtube_content query "video".data max_results (Except.ok resp)).1.map
            (fun r => r.title)
          = resp.items.map (fun it => it.snippet.title))
      ∧ ((∀ it ∈ resp.items, it.id.playlistId ≠ none) →
        (search_youtube_content query "playlist".data max_results (Except.ok resp)).1.length
          = resp.items.length
        ∧ (search_youtube_content query "playlist".data max_results (Except.ok resp)).1.map
            (fun r => r.link)
          = resp.items.map
              (fun it => "https://www.youtube.com/playlist?list=".data ++ it.id.playlistId.getD [])
        ∧ (search_youtube_content query "playlist".data max_results (Except.ok resp)).1.map
            (fun r => r.title)
          = resp.items.map (fun it => it.snippet.title)) := by
  intro query max_results resp
  constructor
  · intro h
    have hs : (search_youtube_content query "video".data max_results (Except.ok resp)).1
        = resp.items.map (fun it =>
            mkSearchResult it ("https://www.youtube.com/watch?v=".data ++ it.id.videoId.getD [])) := by
      simp [search_youtube_content, Except.bind, buildResults_video resp.items h]
    rw [hs]
    exact ⟨by simp, by simp [List.map_map, mkSearchResult, Function.comp],
      by simp [List.map_map, mkSearchResult, Function.comp]⟩
  · intro h
    have hs : (search_youtube_content query "playlist".data max_results (Except.ok resp)).1
        = resp.items.map (fun it =>
            mkSearchResult it ("https://www.youtube.com/playlist?list=".data
              ++ it.id.playlistId.getD [])) := by
      simp [search_youtube_content, Except.bind, buildResults_playlist resp.items h]
    rw [hs]
    exact ⟨by simp, by simp [List.map_map, mkSearchResult, Function.comp],
      by simp [List.map_map, mkSearchResult, Function.comp]⟩

/-- Witness for `search_results_shape` at the concrete two-item response
`sampleResp`, for both content types. -/
theorem search_results_shape_witness :
    (∀ it ∈ sampleResp.items, it.id.videoId ≠ none)
    ∧ (∀ it ∈ sampleResp.items, it.id.playlistId ≠ none)
    ∧ (search_youtube_content "q".data "video".data 2 (Except.ok sampleResp)).1.length = 2
    ∧ (search_youtube_content "q".data "video".data 2 (Except.ok sampleResp)).1.map
        (fun r => r.link)
      = ["https://www.youtube.com/watch?v=abc".data, "https://www.youtube.com/watch?v=def".data]
    ∧ (search_youtube_content "q".data "playlist".data 2 (Except.ok sampleResp)).1.map
        (fun r => r.link)
      = ["https://www.youtube.com/playlist?list=PL1".data,
         "https://www.youtube.com/playlist?list=PL2".data] := by
  have hv := (search_results_shape "q".data 2 sampleResp).1 (by decide)
  have hp := (search_results_shape "q".data 2 sampleResp).2 (by decide)
  exact ⟨by decide, by decide, hv.1.trans (by decide), hv.2.1.trans (by decide),
    hp.2.1.trans (by decide)⟩

/-! ### Claim theorem for the duration metric mismatch -/

theorem vizLoopAux_weight :
    ∀ (phases : List (List Char)) (i start : Nat),
      ((vizLoopAux phases i start).1.map (fun tr => tr.x.sum)).sum = durTotal i phases.length := by
  intro phases
  induction phases with
  | nil => intro i start; simp [vizLoopAux, durTotal]
  | cons p ps ih =>
    intro i start
    simp [vizLoopAux, durTotal, mkBarTrace, ih (i + 1) (start + phaseDuration i)]

theorem durTotal_high : ∀ (n i : Nat), 2 ≤ i → durTotal i n = 6 * n := by
  intro n
  induction n with
  | zero => intro i _; simp [durTotal]
  | succ n ih =>
    intro i hi
    rw [durTotal, phaseDuration, if_neg (by omega), ih (i + 1) (by omega)]
    ring

theorem durTotal_zero_eq : ∀ n : Nat, durTotal 0 n = 4 * min n 2 + 6 * (n - 2) := by
  intro n
  match n with
  | 0 => simp [durTotal]
  | 1 => simp [durTotal, phaseDuration]
  | (m + 2) =>
    have h2 : durTotal 0 (m + 2) = 4 + (4 + durTotal 2 m) := by
      simp [durTotal, phaseDuration]
    rw [h2, durTotal_high m 2 (Nat.le_refl 2)]
    have hmin : min (m + 2) 2 = 2 := by omega
    rw [hmin]
    omega

/-- C10: for every roadmap text from which n phases are extracted (by the
statistics regex of `main` and the visualization regex alike), the displayed
"Estimated Duration" metric equals 4·n weeks, while the timeline
visualization assigns a total duration of 4·min(n,2) + 6·(n−2) weeks; the two
totals differ for every n > 2. -/
theorem duration_metric_vs_viz_total :
    ∀ (text : List Char) (n : Nat),
      (statsPhases text).length = n → (findPhases text).length = n →
      estimated_duration_metric text = 4 * n
      ∧ totalVizWeeks (create_roadmap_visualization text) = 4 * min n 2 + 6 * (n - 2)
      ∧ (2 < n →
          estimated_duration_metric text ≠ totalVizWeeks (create_roadmap_visualization text)) := by
  intro text n h1 h2
  have hm : estimated_duration_metric text = 4 * n := by
    rw [estimated_duration_metric, h1, Nat.mul_comm]
  have hv : totalVizWeeks (create_roadmap_visualization text) = 4 * min n 2 + 6 * (n - 2) := by
    rw [totalVizWeeks, create_roadmap_visualization, vizLoopAux_weight, h2, durTotal_zero_eq]
  refine ⟨hm, hv, fun hn => ?_⟩
  rw [hm, hv]
  have hmin : min n 2 = 2 := by omega
  rw [hmin]
  omega

/-- Witness for `duration_metric_vs_viz_total` at a concrete three-phase
roadmap text. -/
theorem duration_metric_vs_viz_total_witness :
    (statsPhases "1. A\n2. B\n3. C".data).length = 3
    ∧ (findPhases "1. A\n2. B\n3. C".data).length = 3
    ∧ estimated_duration_metric "1. A\n2. B\n3. C".data = 12
    ∧ totalVizWeeks (create_roadmap_visualization "1. A\n2. B\n3. C".data) = 14
    ∧ estimated_duration_metric "1. A\n2. B\n3. C".data
        ≠ totalVizWeeks (create_roadmap_visualization "1. A\n2. B\n3. C".data) := by
  have h := duration_metric_vs_viz_total "1. A\n2. B\n3. C".data 3 (by decide) (by decide)
  exact ⟨by decide, by decide, h.1.trans (by decide), h.2.1.trans (by decide),
    h.2.2 (by decide)⟩

end CourseCrafter
